import Mathlib

/-
Verification of the network request/retry layer and GraphQL query layer of
the grayjay-xhamster plugin (src/utils/network.ts and src/utils/graphql.ts),
shallowly embedded in Lean. Host-injected capabilities (the `http` transport,
`JSON.parse`, `domParser`, `plugin.config.constants.defaultHeaders`,
`getBaseUrl`, `URLSearchParams`) are modelled as an explicit environment.
-/

set_option maxHeartbeats 1000000

namespace XH

/-- JSON-like values as handled by the host runtime. `null` stands for both
JavaScript `null` and `undefined`. Numbers are modelled as integers, which
covers every value the claims exercise. -/
inductive JValue where
  | null : JValue
  | bool : Bool → JValue
  | num : Int → JValue
  | str : String → JValue
  | arr : List JValue → JValue
  | obj : List (String × JValue) → JValue
deriving Repr

/-- JavaScript truthiness. Objects and arrays are always truthy, even when
empty. -/
def JValue.truthy : JValue → Bool
  | .null => false
  | .bool b => b
  | .num n => n != 0
  | .str s => s != ""
  | .arr _ => true
  | .obj _ => true

/-- Property read `v[k]` on a non-null value: missing keys and non-object
receivers yield `undefined` (modelled as `null`); duplicate keys resolve to
the last entry, as in a JavaScript object. -/
def jGet (v : JValue) (k : String) : JValue :=
  match v with
  | .obj fs => fs.foldl (fun acc p => if p.1 = k then p.2 else acc) .null
  | _ => .null

/-- The host failure value `new ScriptException(kind, message)`. -/
structure ScriptException where
  kind : String
  msg : String
deriving Repr, DecidableEq

/-- Minimal JSON string escaping (quote and backslash), as used by the host
JSON.stringify on the strings the code produces. -/
def jsonEscape (s : String) : String :=
  s.foldl (fun acc c =>
    acc ++ (if c = '"' then "\\\"" else if c = '\\' then "\\\\" else String.singleton c)) ""

mutual
/-- Host `JSON.stringify` on the modelled values. -/
def jsonStringify : JValue → String
  | .null => "null"
  | .bool true => "true"
  | .bool false => "false"
  | .num n => toString n
  | .str s => "\"" ++ jsonEscape s ++ "\""
  | .arr xs => "[" ++ jsonStringifyArr xs ++ "]"
  | .obj fs => "\x7b" ++ jsonStringifyObj fs ++ "\x7d"

/-- Comma-joined stringification of array elements. -/
def jsonStringifyArr : List JValue → String
  | [] => ""
  | [v] => jsonStringify v
  | v :: vs => jsonStringify v ++ "," ++ jsonStringifyArr vs

/-- Comma-joined stringification of object fields. -/
def jsonStringifyObj : List (String × JValue) → String
  | [] => ""
  | [(k, v)] => "\"" ++ jsonEscape k ++ "\":" ++ jsonStringify v
  | (k, v) :: fs => "\"" ++ jsonEscape k ++ "\":" ++ jsonStringify v ++ "," ++ jsonStringifyObj fs
end

mutual
/-- The element-to-string conversion performed by `Array.prototype.join`:
null and undefined become the empty string, arrays flatten with commas,
plain objects print as &#91;object Object&#93;. -/
def jsJoinElem : JValue → String
  | .null => ""
  | .bool true => "true"
  | .bool false => "false"
  | .num n => toString n
  | .str s => s
  | .arr xs => jsJoinList xs
  | .obj _ => "[object Object]"

/-- Comma join used when an array is converted to a string. -/
def jsJoinList : List JValue → String
  | [] => ""
  | [v] => jsJoinElem v
  | v :: vs => jsJoinElem v ++ "," ++ jsJoinList vs
end

/-- Line 172: `response.errors.map(e => e.message).join(", ")`. -/
def joinMessages (es : List JValue) : String :=
  String.intercalate ", " (es.map (fun e => jsJoinElem (jGet e "message")))

/-- Header lookup on an association list: later entries override earlier
ones, matching JavaScript object-spread semantics. -/
def hGet (hs : List (String × String)) (k : String) : Option String :=
  hs.foldl (fun acc p => if p.1 = k then some p.2 else acc) none

/-- Line 298: object spread of the default headers then the caller headers;
caller entries come later, so they win on lookup. -/
def mergeHeaders (defaults custom : List (String × String)) : List (String × String) :=
  defaults ++ custom

/-- A transport response as exposed by the host `http` object. -/
structure HttpResponse where
  isOk : Bool
  code : Nat
  body : String
deriving Repr, DecidableEq

/-- The request handed to the transport on one call. For GET dispatches the
body slot is empty, mirroring `http.GET(url, headers, useAuth)`. -/
structure HttpRequest where
  method : String
  url : String
  body : String
  headers : List (String × String)
  useAuth : Bool
deriving Repr, DecidableEq

/-- One transport call either throws (carrying the thrown message) or yields
a response. -/
inductive AttemptOutcome where
  | throws : String → AttemptOutcome
  | responds : HttpResponse → AttemptOutcome
deriving Repr, DecidableEq

/-- Host environment: the injected globals the network layer consumes.
`http` is indexed by the number of transport calls the current `_fetch` has
already made, so a stub can script per-attempt outcomes; `jsonParse` models
`JSON.parse` with `Except.error` the thrown SyntaxError message; `domParse`
models `domParser.parseFromString`; `defaultHeaders` models
`plugin.config.constants.defaultHeaders`; `baseUrl` models `getBaseUrl()`;
`encodeParams` models `URLSearchParams.toString()`. -/
structure Env where
  http : Nat → HttpRequest → AttemptOutcome
  jsonParse : String → Except String JValue
  domParse : String → JValue
  defaultHeaders : List (String × String)
  baseUrl : String
  encodeParams : List (String × String) → String

/-- `FetchOptions` with the destructuring defaults of `_fetch` (lines
284-294). `data := JValue.null` models the absent/null body. -/
structure FetchOptions where
  method : String := "GET"
  headers : List (String × String) := []
  data : JValue := .null
  useAuth : Bool := false
  retries : Nat := 3
  retryDelay : Nat := 1000
  parseJson : Bool := false
  parseHtml : Bool := false
  throwOnError : Bool := true

/-- `String.prototype.toUpperCase` (line 306), as a per-character map over
the ASCII method names the code uses. -/
def jsToUpperCase (s : String) : String :=
  String.mk (s.data.map Char.toUpper)

/-- Line 309: the body is the data itself when it is a truthy string,
its JSON encoding when it is any other truthy value, and the empty string
when the data is falsy (absent or null included). -/
def serializeBody (data : JValue) : String :=
  if data.truthy then
    match data with
    | .str s => s
    | v => jsonStringify v
  else ""

/-- A value returned by `_fetch`: the raw response, a JSON-parsed value, or
a parsed DOM handle. -/
inductive FetchResult where
  | raw : HttpResponse → FetchResult
  | json : JValue → FetchResult
  | html : JValue → FetchResult
deriving Repr

/-- The observable completion of `_fetch`: a returned value, the `null`
return, or a thrown `ScriptException`. -/
inductive FetchOut where
  | ok : FetchResult → FetchOut
  | nullResult : FetchOut
  | thrown : ScriptException → FetchOut
deriving Repr

/-- Completion of `_fetch` instrumented with the number of transport calls
made and the total busy-wait milliseconds spent between attempts. -/
structure FetchOutcome where
  result : FetchOut
  calls : Nat
  waitMs : Nat
deriving Repr

/-- Result of one iteration of the `while` loop body in `_fetch`: either the
function returns from inside the `try`, or a thrown error is caught by the
`catch` clause, which stores its message into `lastError`. -/
inductive AttemptResult where
  | returns : FetchOut → AttemptResult
  | caught : String → AttemptResult
deriving Repr

/-- Lines 312-318: dispatch one transport call. GET and POST use the
dedicated entry points (GET passes no body), any other method the generic
one; all three are faces of the single scripted transport oracle. -/
def dispatchRequest (env : Env) (url upperMethod : String)
    (headers : List (String × String)) (body : String)
    (useAuth : Bool) (callIdx : Nat) : AttemptOutcome :=
  if upperMethod = "GET" then env.http callIdx ⟨"GET", url, "", headers, useAuth⟩
  else if upperMethod = "POST" then env.http callIdx ⟨"POST", url, body, headers, useAuth⟩
  else env.http callIdx ⟨upperMethod, url, body, headers, useAuth⟩

/-- Lines 320-347: classify one transport outcome. A transport throw is
caught; a non-OK status throws a NetworkError naming the URL and status
when `throwOnError` (caught by the surrounding catch, so it is retried) and
returns null otherwise; an OK response is JSON-parsed when `pj` (a parse
failure or a truthy payload `errors` field throws and is caught),
HTML-parsed when `ph`, and returned raw otherwise. -/
def classifyResponse (env : Env) (url : String) (pj ph throwOnError : Bool) :
    AttemptOutcome → AttemptResult
  | .throws msg => .caught msg
  | .responds resp =>
    if !resp.isOk then
      if throwOnError then
        .caught ("Request to " ++ url ++ " failed with status " ++ toString resp.code)
      else
        .returns .nullResult
    else if pj then
      match env.jsonParse resp.body with
      | .error msg => .caught msg
      | .ok jsonData =>
        if (jGet jsonData "errors").truthy then
          .caught (jsonStringify (jGet jsonData "errors"))
        else .returns (.ok (.json jsonData))
    else if ph then
      .returns (.ok (.html (env.domParse resp.body)))
    else .returns (.ok (.raw resp))

/-- One iteration of the `_fetch` loop body (lines 304-348): dispatch, then
classify. Every throw inside the `try` block surfaces as `caught`. -/
def runAttempt (env : Env) (url : String) (upperMethod : String)
    (headers : List (String × String)) (body : String)
    (useAuth pj ph throwOnError : Bool) (callIdx : Nat) : AttemptResult :=
  classifyResponse env url pj ph throwOnError
    (dispatchRequest env url upperMethod headers body useAuth callIdx)

/-- Line 370: `lastError?.message || "Unknown error"` — an empty stored
message is falsy and also yields the fallback text. -/
def lastErrorMessage : Option String → String
  | some m => if m = "" then "Unknown error" else m
  | none => "Unknown error"

/-- The `while (attempts > 0)` loop of `_fetch` (lines 303-374), with the
remaining attempt count as fuel. Accumulates the transport-call count and
busy-wait milliseconds and carries the `lastError` message. On exhaustion it
throws the summarizing NetworkError when `throwOnError`, else returns null.
The busy wait runs only when attempts remain after the decrement and
`retryDelay` is positive. -/
def fetchLoop (env : Env) (url : String) (upperMethod : String)
    (headers : List (String × String)) (body : String)
    (useAuth pj ph throwOnError : Bool) (retries retryDelay : Nat) :
    Nat → Nat → Nat → Option String → FetchOutcome
  | 0, calls, waits, lastErr =>
    if throwOnError then
      ⟨.thrown ⟨"NetworkError",
        "Request to " ++ url ++ " failed after " ++ toString (retries + 1)
          ++ " attempts: " ++ lastErrorMessage lastErr⟩, calls, waits⟩
    else ⟨.nullResult, calls, waits⟩
  | n + 1, calls, waits, lastErr =>
    match runAttempt env url upperMethod headers body useAuth pj ph throwOnError calls with
    | .returns r => ⟨r, calls + 1, waits⟩
    | .caught msg =>
      fetchLoop env url upperMethod headers body useAuth pj ph throwOnError retries retryDelay
        n (calls + 1)
        (waits + (if 0 < n ∧ 0 < retryDelay then retryDelay else 0))
        (some msg)

/-- `_fetch` (lines 283-375): merge caller headers over the plugin default
headers, uppercase the method, serialize the body, then run the retry loop
with `retries + 1` total attempts. -/
def _fetch (env : Env) (url : String) (options : FetchOptions) : FetchOutcome :=
  let headers := mergeHeaders env.defaultHeaders options.headers
  let upperMethod := (jsToUpperCase options.method)
  let body := serializeBody options.data
  fetchLoop env url upperMethod headers body options.useAuth options.parseJson
    options.parseHtml options.throwOnError options.retries options.retryDelay
    (options.retries + 1) 0 0 none

/-- `fetch` / `get` (lines 382-396): spread the options with method GET. -/
def get (env : Env) (url : String) (options : FetchOptions) : FetchOutcome :=
  _fetch env url { options with method := "GET" }

/-- `post` (lines 401-403). -/
def post (env : Env) (url : String) (data : JValue) (options : FetchOptions) : FetchOutcome :=
  _fetch env url { options with method := "POST", data := data }

/-- `put` (lines 408-410). -/
def put (env : Env) (url : String) (data : JValue) (options : FetchOptions) : FetchOutcome :=
  _fetch env url { options with method := "PUT", data := data }

/-- `del` (lines 415-417). -/
def del (env : Env) (url : String) (options : FetchOptions) : FetchOutcome :=
  _fetch env url { options with method := "DELETE" }

/-- `fetchJson` (lines 422-428): add `Accept: application/json` under the
caller headers (caller wins on lookup since its entries come later) and set
`parseJson`. -/
def fetchJson (env : Env) (url : String) (options : FetchOptions) : FetchOutcome :=
  let headers := ("Accept", "application/json") :: options.headers
  _fetch env url { options with headers := headers, parseJson := true }

/-- `getJson` (lines 433-435). -/
def getJson (env : Env) (url : String) (options : FetchOptions) : FetchOutcome :=
  fetchJson env url { options with method := "GET" }

/-- `postJson` (lines 440-446): add `Content-Type: application/json` under
the caller headers, then go through `fetchJson`. -/
def postJson (env : Env) (url : String) (data : JValue) (options : FetchOptions) : FetchOutcome :=
  let headers := ("Content-Type", "application/json") :: options.headers
  fetchJson env url { options with headers := headers, method := "POST", data := data }

/-- `fetchHtml` (lines 452-455). -/
def fetchHtml (env : Env) (url : String) (options : FetchOptions) : FetchOutcome :=
  _fetch env url { options with parseHtml := true }

/-- `getHtml` (lines 461-464). -/
def getHtml (env : Env) (url : String) (options : FetchOptions) : FetchOutcome :=
  _fetch env url { options with method := "GET", parseHtml := true }

/-- The JavaScript value `_fetch` handed back, seen through `FetchResult`.
With `parseJson` set, `_fetch` only ever returns `json` values, so the
other constructors are unreachable in the GraphQL paths and map to null. -/
def FetchResult.asJson : FetchResult → JValue
  | .json v => v
  | .raw _ => .null
  | .html _ => .null

/-- Completion of `fetchGraphQL` / `getJson`: a returned value (null for the
null return) or a thrown `ScriptException`, with the instrumentation
counters of the underlying `_fetch`. -/
structure GqlFetch where
  result : Except ScriptException JValue
  calls : Nat
  waitMs : Nat

/-- `fetchGraphQL` (lines 473-499): POST the payload as JSON with
`Content-Type: application/json` merged under the caller headers, then
unwrap the payload `data` property when the payload and that property are
truthy, else hand back the payload itself. -/
def fetchGraphQL (env : Env) (endpoint : String) (query : String)
    (vars : List (String × JValue)) (options : FetchOptions) : GqlFetch :=
  let payload : JValue := .obj [("query", .str query), ("variables", .obj vars)]
  let headers := ("Content-Type", "application/json") :: options.headers
  let fo := _fetch env endpoint
    { options with method := "POST", headers := headers, data := payload, parseJson := true }
  match fo.result with
  | .thrown e => ⟨.error e, fo.calls, fo.waitMs⟩
  | .nullResult => ⟨.ok .null, fo.calls, fo.waitMs⟩
  | .ok r =>
    let response := r.asJson
    if response.truthy && (jGet response "data").truthy then
      ⟨.ok (jGet response "data"), fo.calls, fo.waitMs⟩
    else ⟨.ok response, fo.calls, fo.waitMs⟩

/-- `GraphQLError` (graphql.ts lines 50-55). The codes the layer produces
are the source string literals INVALID_QUERY, GQL_ERROR, EXCEPTION and
INVALID_PERSISTED_QUERY, which the spec names invalid-query, graphql-error,
exception and invalid-persisted-query. -/
structure GraphQLError where
  code : String
  message : String
  errors : Option JValue := none
  operationName : Option String := none
deriving Repr

/-- Result of the tuple-returning GraphQL forms: the `[error, data]` tuple,
instrumented with the transport calls made and busy-wait time spent. -/
structure GqlExec where
  error : Option GraphQLError
  data : JValue
  calls : Nat
  waitMs : Nat

/-- `GraphQLOptions` (graphql.ts lines 12-25) with the destructuring
defaults of `executeQuery`; `query := none` models the absent field. -/
structure GraphQLOptions where
  query : Option String := none
  vars : List (String × JValue) := []
  headers : List (String × String) := []
  useAuth : Bool := false
  endpoint : String := "/graphql"
  retries : Nat := 3

/-- `String.prototype.startsWith`, as a character-list prefix test. -/
def jsStartsWith (s pre : String) : Bool :=
  pre.data.isPrefixOf s.data

/-- Whether `pat` occurs as a contiguous run inside the second list. -/
def listContainsSub (pat : List Char) : List Char → Bool
  | [] => pat.isEmpty
  | c :: rest => pat.isPrefixOf (c :: rest) || listContainsSub pat rest

/-- `String.prototype.includes`, as a character-list search. -/
def strIncludes (s pat : String) : Bool :=
  listContainsSub pat.data s.data

/-- `executeQuery` (graphql.ts lines 67-114): fail fast on a falsy query
string; otherwise resolve the URL (absolute endpoints pass through,
relative paths join the base URL) and POST through `fetchGraphQL`; a thrown
error is classified by whether its message mentions GraphQL errors. -/
def executeQuery (env : Env) (options : GraphQLOptions) : GqlExec :=
  let q := options.query.getD ""
  if q = "" then
    ⟨some ⟨"INVALID_QUERY", "Query string is required", none, none⟩, .null, 0, 0⟩
  else
    let baseUrl := env.baseUrl
    let url := if jsStartsWith options.endpoint "http" then options.endpoint
               else baseUrl ++ options.endpoint
    let r := fetchGraphQL env url q options.vars
      { headers := options.headers, useAuth := options.useAuth, retries := options.retries }
    match r.result with
    | .ok v => ⟨none, v, r.calls, r.waitMs⟩
    | .error e =>
      if strIncludes e.msg "GraphQL errors" then
        ⟨some ⟨"GQL_ERROR", e.msg, none, none⟩, .null, r.calls, r.waitMs⟩
      else
        ⟨some ⟨"EXCEPTION", e.msg, none, none⟩, .null, r.calls, r.waitMs⟩

/-- The raising convenience form `query` (graphql.ts lines 201-209): unwrap
the tuple from `executeQuery`, rethrowing any error as a GraphQLError-kind
`ScriptException` carrying the error message. -/
def query (env : Env) (queryString : String) (vars : List (String × JValue)) :
    Except ScriptException JValue × Nat × Nat :=
  let r := executeQuery env { query := some queryString, vars := vars }
  match r.error with
  | some e => (.error ⟨"GraphQLError", e.message⟩, r.calls, r.waitMs)
  | none => (.ok r.data, r.calls, r.waitMs)

/-- `PersistedQueryOptions` (graphql.ts lines 30-45) with the destructuring
defaults of `executePersistedQuery`. -/
structure PersistedQueryOptions where
  operationName : String
  sha256Hash : String
  version : Int := 1
  vars : List (String × JValue) := []
  headers : List (String × String) := []
  useAuth : Bool := false
  retries : Nat := 3

/-- JavaScript property access `v.k` as an expression that may throw:
reading a property of null (or undefined) throws a TypeError, while reading
a missing property of any other value just yields `undefined`. -/
def jGetE (v : JValue) (k : String) : Except ScriptException JValue :=
  match v with
  | .null => .error ⟨"TypeError", "Cannot read properties of null (reading " ++ k ++ ")"⟩
  | _ => .ok (jGet v k)

/-- The payload inspection inside the try block of `executePersistedQuery`
(graphql.ts lines 170-184 and the final return): a truthy payload with a
truthy `errors` property yields a GQL_ERROR whose message joins the per-error
`message` fields with a comma-space, paired with `response.data || null`;
calling `.map` on a truthy non-array `errors` throws; otherwise the `data`
property is read (throwing when the payload itself is null) and returned
with a null error. -/
def processPayload (operationName : String) (response : JValue) :
    Except ScriptException (Option GraphQLError × JValue) :=
  if response.truthy && (jGet response "errors").truthy then
    match jGet response "errors" with
    | .arr es =>
      .ok (some ⟨"GQL_ERROR", joinMessages es, some (.arr es), some operationName⟩,
           if (jGet response "data").truthy then jGet response "data" else .null)
    | _ => .error ⟨"TypeError", "response.errors.map is not a function"⟩
  else
    match jGetE response "data" with
    | .ok d => .ok (none, d)
    | .error e => .error e

/-- `executePersistedQuery` (graphql.ts lines 122-195): fail fast when
operationName or sha256Hash is falsy; otherwise build the persisted-query
URL (operationName, the JSON-encoded vars when non-empty, and the
JSON-encoded extensions object), GET it as JSON with `throwOnError` forced
false, and inspect the payload; every throw inside the try block is caught
and converted to an EXCEPTION error paired with null data. -/
def executePersistedQuery (env : Env) (options : PersistedQueryOptions) : GqlExec :=
  if options.operationName = "" ∨ options.sha256Hash = "" then
    ⟨some ⟨"INVALID_PERSISTED_QUERY", "operationName and sha256Hash are required",
      none, none⟩, .null, 0, 0⟩
  else
    let baseUrl := env.baseUrl
    let params :=
      [("operationName", options.operationName)]
        ++ (if options.vars.length > 0 then
              [("variables", jsonStringify (.obj options.vars))] else [])
        ++ [("extensions", jsonStringify (.obj [("persistedQuery",
              .obj [("version", .num options.version),
                    ("sha256Hash", .str options.sha256Hash)])]))]
    let url := baseUrl ++ "?" ++ env.encodeParams params
    let r := getJson env url
      { headers := options.headers, useAuth := options.useAuth,
        retries := options.retries, throwOnError := false }
    let tried : Except ScriptException (Option GraphQLError × JValue) :=
      match r.result with
      | .thrown e => .error e
      | .nullResult => processPayload options.operationName .null
      | .ok fr => processPayload options.operationName fr.asJson
    match tried with
    | .ok (e, d) => ⟨e, d, r.calls, r.waitMs⟩
    | .error ex =>
      ⟨some ⟨"EXCEPTION", ex.msg, none, some options.operationName⟩, .null, r.calls, r.waitMs⟩

/-- The raising convenience form `persistedQuery` (graphql.ts lines
215-231). -/
def persistedQuery (env : Env) (operationName sha256Hash : String)
    (vars : List (String × JValue)) : Except ScriptException JValue × Nat × Nat :=
  let r := executePersistedQuery env
    { operationName := operationName, sha256Hash := sha256Hash, vars := vars }
  match r.error with
  | some e => (.error ⟨"GraphQLError", e.message⟩, r.calls, r.waitMs)
  | none => (.ok r.data, r.calls, r.waitMs)

/-- Whether a transport outcome is a response with a non-OK status. -/
def respondsNotOk : AttemptOutcome → Bool
  | .responds r => !r.isOk
  | .throws _ => false

/-- Whether attempt number `k` of `_fetch env url o` completes the request,
returning from inside the try block instead of throwing. -/
def fetchAttemptReturns (env : Env) (url : String) (o : FetchOptions) (k : Nat) : Bool :=
  match runAttempt env url (jsToUpperCase o.method) (mergeHeaders env.defaultHeaders o.headers)
      (serializeBody o.data) o.useAuth o.parseJson o.parseHtml o.throwOnError k with
  | .returns _ => true
  | .caught _ => false

/-- Index of the first `true` of `f` among `fuel` consecutive indices
starting at `start`. -/
def firstIdxTrue (f : Nat → Bool) : Nat → Nat → Option Nat
  | 0, _ => none
  | fuel + 1, start => if f start then some start else firstIdxTrue f fuel (start + 1)

/-- The number of attempts up to and including the first successful one,
capped at `cap` when no attempt among the first `cap` succeeds. -/
def attemptsUntilFirstSuccess (f : Nat → Bool) (cap : Nat) : Nat :=
  match firstIdxTrue f cap 0 with
  | some s => s + 1
  | none => cap

/-- Plain query-string encoding used by the stub environments for
`URLSearchParams.toString`. -/
def stubEnc (ps : List (String × String)) : String :=
  String.intercalate "&" (ps.map (fun p => p.1 ++ "=" ++ p.2))

/-- Stub environment whose transport always succeeds. -/
def envOk : Env :=
  ⟨fun _ _ => .responds ⟨true, 200, "pong"⟩, fun s => .ok (.str s), fun s => .str s,
   [], "https://example.com", stubEnc⟩

/-- Stub environment whose transport always responds with HTTP 500. -/
def envNotOk : Env :=
  ⟨fun _ _ => .responds ⟨false, 500, "boom"⟩, fun s => .ok (.str s), fun s => .str s,
   [], "https://example.com", stubEnc⟩

/-- Stub environment whose transport always throws. -/
def envThrows : Env :=
  ⟨fun _ _ => .throws "socket hang up", fun s => .ok (.str s), fun s => .str s,
   [], "https://example.com", stubEnc⟩

/-- Stub environment whose transport echoes the request body back as the
response body. -/
def envEcho : Env :=
  ⟨fun _ req => .responds ⟨true, 200, req.body⟩, fun s => .ok (.str s), fun s => .str s,
   [], "https://example.com", stubEnc⟩

/-- Stub environment whose transport reports the effective value of header
`k` back as the response body, with default headers `d`; used to observe
the header set `_fetch` hands to the transport. -/
def probeEnv (d : List (String × String)) (k : String) : Env :=
  ⟨fun _ req => .responds ⟨true, 200, (hGet req.headers k).getD ""⟩,
   fun s => .ok (.str s), fun s => .str s, d, "https://example.com", stubEnc⟩

/-- The persisted-query payload of the C4 scenario: two GraphQL errors next
to partial data. -/
def payloadAB : JValue :=
  .obj [("errors", .arr [.obj [("message", .str "A")], .obj [("message", .str "B")]]),
        ("data", .obj [("x", .num 1)])]

/-- Stub environment whose transport always returns HTTP 200 with a body
that decodes to `payloadAB`. -/
def envGqlErrors : Env :=
  ⟨fun _ _ => .responds ⟨true, 200, "payload"⟩, fun _ => .ok payloadAB, fun s => .str s,
   [], "https://example.com", stubEnc⟩

/-- Attempt `k` of `_fetch env url o` throws (is caught by the retry
catch clause). -/
def attemptThrows (env : Env) (url : String) (o : FetchOptions) (k : Nat) : Prop :=
  ∃ m, runAttempt env url (jsToUpperCase o.method) (mergeHeaders env.defaultHeaders o.headers)
    (serializeBody o.data) o.useAuth o.parseJson o.parseHtml o.throwOnError k = .caught m

/-- Options with `throwOnError := false` and everything else defaulted. -/
def oNoThrow : FetchOptions := { throwOnError := false }

/-- Options with a zero retry budget and zero retry delay. -/
def oZeroRetries : FetchOptions := { retries := 0, retryDelay := 0 }

/-- Options requesting both JSON and HTML parsing. -/
def oBothParse : FetchOptions := { parseJson := true, parseHtml := true }

theorem foldl_hGet_aux (k : String) :
    ∀ (t : List (String × String)) (acc : Option String),
      List.foldl (fun acc p => if p.1 = k then some p.2 else acc) acc t =
        match List.foldl (fun acc p => if p.1 = k then some p.2 else acc) none t with
        | some v => some v
        | none => acc := by
  intro t
  induction t with
  | nil => intro acc; rfl
  | cons p t ih =>
    intro acc
    simp only [List.foldl_cons]
    rw [ih (if p.1 = k then some p.2 else acc), ih (if p.1 = k then some p.2 else none)]
    cases h : List.foldl (fun acc p => if p.1 = k then some p.2 else acc) none t with
    | some v => rfl
    | none => by_cases hp : p.1 = k <;> simp [hp]

theorem hGet_append (a b : List (String × String)) (k : String) :
    hGet (a ++ b) k =
      match hGet b k with
      | some v => some v
      | none => hGet a k := by
  unfold hGet
  rw [List.foldl_append]
  exact foldl_hGet_aux k b _

theorem firstIdxTrue_lt (f : Nat → Bool) :
    ∀ fuel start s, firstIdxTrue f fuel start = some s → start ≤ s ∧ s < start + fuel := by
  intro fuel
  induction fuel with
  | zero => intro start s h; simp [firstIdxTrue] at h
  | succ n ih =>
    intro start s h
    rw [firstIdxTrue] at h
    by_cases hf : f start
    · rw [if_pos hf] at h
      cases h
      omega
    · rw [if_neg hf] at h
      have := ih (start + 1) s h
      omega

theorem fetchLoop_calls (env : Env) (url um : String) (hs : List (String × String))
    (bd : String) (ua pj ph toe : Bool) (rts rd : Nat) :
    ∀ (fuel start w : Nat) (l : Option String),
      (fetchLoop env url um hs bd ua pj ph toe rts rd fuel start w l).calls =
        match firstIdxTrue (fun k =>
            match runAttempt env url um hs bd ua pj ph toe k with
            | .returns _ => true
            | .caught _ => false) fuel start with
        | some s => s + 1
        | none => start + fuel := by
  intro fuel
  induction fuel with
  | zero =>
    intro start w l
    simp only [fetchLoop, firstIdxTrue]
    split <;> rfl
  | succ n ih =>
    intro start w l
    cases hr : runAttempt env url um hs bd ua pj ph toe start with
    | returns r =>
      simp only [fetchLoop, firstIdxTrue, hr]
      simp
    | caught m =>
      simp only [fetchLoop, firstIdxTrue, hr]
      rw [ih]
      cases h2 : firstIdxTrue (fun k =>
          match runAttempt env url um hs bd ua pj ph toe k with
          | .returns _ => true
          | .caught _ => false) n (start + 1) with
      | some s => simp
      | none => simp; ring

theorem fetchLoop_waits_rd0 (env : Env) (url um : String) (hs : List (String × String))
    (bd : String) (ua pj ph toe : Bool) (rts : Nat) :
    ∀ (fuel start w : Nat) (l : Option String),
      (fetchLoop env url um hs bd ua pj ph toe rts 0 fuel start w l).waitMs = w := by
  intro fuel
  induction fuel with
  | zero =>
    intro start w l
    simp only [fetchLoop]
    split <;> rfl
  | succ n ih =>
    intro start w l
    simp only [fetchLoop]
    cases hr : runAttempt env url um hs bd ua pj ph toe start with
    | returns r => rfl
    | caught m => simp only [Nat.lt_irrefl, and_false, if_false, Nat.add_zero, ih]

theorem fetchLoop_allCaught_thrown (env : Env) (url um : String)
    (hs : List (String × String)) (bd : String) (ua pj ph : Bool) (rts rd : Nat)
    (hall : ∀ k, ∃ m, runAttempt env url um hs bd ua pj ph true k = .caught m) :
    ∀ (fuel start w : Nat) (l : Option String), ∃ t,
      (fetchLoop env url um hs bd ua pj ph true rts rd fuel start w l).result =
        .thrown ⟨"NetworkError",
          "Request to " ++ url ++ " failed after " ++ toString (rts + 1)
            ++ " attempts: " ++ t⟩ := by
  intro fuel
  induction fuel with
  | zero =>
    intro start w l
    exact ⟨lastErrorMessage l, by simp [fetchLoop]⟩
  | succ n ih =>
    intro start w l
    obtain ⟨m, hm⟩ := hall start
    simp only [fetchLoop, hm]
    exact ih (start + 1) _ _

theorem fetchLoop_allCaught_null (env : Env) (url um : String)
    (hs : List (String × String)) (bd : String) (ua pj ph : Bool) (rts rd : Nat)
    (hall : ∀ k, ∃ m, runAttempt env url um hs bd ua pj ph false k = .caught m) :
    ∀ (fuel start w : Nat) (l : Option String),
      (fetchLoop env url um hs bd ua pj ph false rts rd fuel start w l).result = .nullResult
        ∧ (fetchLoop env url um hs bd ua pj ph false rts rd fuel start w l).calls
            = start + fuel := by
  intro fuel
  induction fuel with
  | zero => intro start w l; exact ⟨by simp [fetchLoop], by simp [fetchLoop]⟩
  | succ n ih =>
    intro start w l
    obtain ⟨m, hm⟩ := hall start
    simp only [fetchLoop, hm]
    obtain ⟨h1, h2⟩ := ih (start + 1) (w + if 0 < n ∧ 0 < rd then rd else 0) (some m)
    exact ⟨h1, by rw [h2]; omega⟩

theorem fetchLoop_firstNull (env : Env) (url um : String)
    (hs : List (String × String)) (bd : String) (ua pj ph : Bool) (rts rd : Nat)
    (fuel start w : Nat) (l : Option String)
    (h : runAttempt env url um hs bd ua pj ph false start = .returns .nullResult)
    (hf : 0 < fuel) :
    fetchLoop env url um hs bd ua pj ph false rts rd fuel start w l =
      ⟨.nullResult, start + 1, w⟩ := by
  cases fuel with
  | zero => omega
  | succ n => simp only [fetchLoop, h]

theorem dispatch_exists (env : Env) (url um : String) (hs : List (String × String))
    (bd : String) (ua : Bool) (k : Nat) :
    ∃ req, dispatchRequest env url um hs bd ua k = env.http k req := by
  unfold dispatchRequest
  split
  · exact ⟨_, rfl⟩
  · split
    · exact ⟨_, rfl⟩
    · exact ⟨_, rfl⟩

theorem classify_caught_of_notOk (env : Env) (url : String) (pj ph : Bool)
    (o : AttemptOutcome) (h : respondsNotOk o = true) :
    ∃ m, classifyResponse env url pj ph true o = .caught m := by
  cases o with
  | throws m => exact ⟨m, rfl⟩
  | responds r =>
    cases r with
    | mk ok c b =>
      cases ok with
      | true => simp [respondsNotOk] at h
      | false => exact ⟨_, rfl⟩

theorem classify_null_of_notOk (env : Env) (url : String) (pj ph : Bool)
    (o : AttemptOutcome) (h : respondsNotOk o = true) :
    classifyResponse env url pj ph false o = .returns .nullResult := by
  cases o with
  | throws m => simp [respondsNotOk] at h
  | responds r =>
    cases r with
    | mk ok c b =>
      cases ok with
      | true => simp [respondsNotOk] at h
      | false => rfl

theorem runAttempt_caught_of_notOk (env : Env) (url um : String)
    (hs : List (String × String)) (bd : String) (ua pj ph : Bool) (k : Nat)
    (h : ∀ i req, respondsNotOk (env.http i req) = true) :
    ∃ m, runAttempt env url um hs bd ua pj ph true k = .caught m := by
  obtain ⟨req, hreq⟩ := dispatch_exists env url um hs bd ua k
  unfold runAttempt
  rw [hreq]
  exact classify_caught_of_notOk env url pj ph _ (h k req)

theorem runAttempt_null_of_notOk (env : Env) (url um : String)
    (hs : List (String × String)) (bd : String) (ua pj ph : Bool) (k : Nat)
    (h : ∀ i req, respondsNotOk (env.http i req) = true) :
    runAttempt env url um hs bd ua pj ph false k = .returns .nullResult := by
  obtain ⟨req, hreq⟩ := dispatch_exists env url um hs bd ua k
  unfold runAttempt
  rw [hreq]
  exact classify_null_of_notOk env url pj ph _ (h k req)

theorem _fetch_thrown_of_notOk (env : Env) (url : String) (o : FetchOptions)
    (htoe : o.throwOnError = true)
    (hResp : ∀ i req, respondsNotOk (env.http i req) = true) :
    ∃ t, (_fetch env url o).result =
      .thrown ⟨"NetworkError",
        "Request to " ++ url ++ " failed after " ++ toString (o.retries + 1)
          ++ " attempts: " ++ t⟩ := by
  have hall : ∀ k, ∃ m, runAttempt env url (jsToUpperCase o.method)
      (mergeHeaders env.defaultHeaders o.headers) (serializeBody o.data)
      o.useAuth o.parseJson o.parseHtml true k = .caught m :=
    fun k => runAttempt_caught_of_notOk env url (jsToUpperCase o.method)
      (mergeHeaders env.defaultHeaders o.headers) (serializeBody o.data)
      o.useAuth o.parseJson o.parseHtml k hResp
  have h := fetchLoop_allCaught_thrown env url (jsToUpperCase o.method)
    (mergeHeaders env.defaultHeaders o.headers) (serializeBody o.data)
    o.useAuth o.parseJson o.parseHtml o.retries o.retryDelay hall
    (o.retries + 1) 0 0 none
  simpa [_fetch, htoe] using h

theorem classify_ok_json (env : Env) (url : String) (ph toe : Bool)
    (o : AttemptOutcome) (r : FetchResult)
    (h : classifyResponse env url true ph toe o = .returns (.ok r)) :
    ∃ v, r = .json v ∧ (jGet v "errors").truthy = false := by
  cases o with
  | throws m => simp [classifyResponse] at h
  | responds resp =>
    cases resp with
    | mk ok c b =>
      cases ok with
      | false =>
        cases toe <;> simp [classifyResponse] at h
      | true =>
        cases hp : env.jsonParse b with
        | error m => simp [classifyResponse, hp] at h
        | ok v =>
          cases he : (jGet v "errors").truthy with
          | true => simp [classifyResponse, hp, he] at h
          | false =>
            simp [classifyResponse, hp, he] at h
            exact ⟨v, h.symm, he⟩

theorem fetchLoop_ok_json (env : Env) (url um : String)
    (hs : List (String × String)) (bd : String) (ua ph toe : Bool) (rts rd : Nat) :
    ∀ (fuel start w : Nat) (l : Option String) (r : FetchResult),
      (fetchLoop env url um hs bd ua true ph toe rts rd fuel start w l).result = .ok r →
      ∃ v, r = .json v ∧ (jGet v "errors").truthy = false := by
  intro fuel
  induction fuel with
  | zero =>
    intro start w l r h
    simp only [fetchLoop] at h
    cases toe <;> simp at h
  | succ n ih =>
    intro start w l r h
    cases hr : runAttempt env url um hs bd ua true ph toe start with
    | returns r2 =>
      simp only [fetchLoop, hr] at h
      have : r2 = .ok r := h
      rw [this] at hr
      exact classify_ok_json env url ph toe _ r hr
    | caught m =>
      simp only [fetchLoop, hr] at h
      exact ih (start + 1) _ _ r h

theorem classify_ph_irrel (env : Env) (url : String) (ph toe : Bool)
    (o : AttemptOutcome) :
    classifyResponse env url true ph toe o = classifyResponse env url true false toe o := by
  cases o with
  | throws m => rfl
  | responds resp =>
    cases resp with
    | mk ok c b => cases ok <;> rfl

theorem fetchLoop_ph_irrel (env : Env) (url um : String)
    (hs : List (String × String)) (bd : String) (ua ph toe : Bool) (rts rd : Nat) :
    ∀ (fuel start w : Nat) (l : Option String),
      fetchLoop env url um hs bd ua true ph toe rts rd fuel start w l =
        fetchLoop env url um hs bd ua true false toe rts rd fuel start w l := by
  intro fuel
  induction fuel with
  | zero => intro start w l; rfl
  | succ n ih =>
    intro start w l
    have hr : runAttempt env url um hs bd ua true ph toe start =
        runAttempt env url um hs bd ua true false toe start := by
      unfold runAttempt
      exact classify_ph_irrel env url ph toe _
    simp only [fetchLoop, hr]
    cases h2 : runAttempt env url um hs bd ua true false toe start with
    | returns r => rfl
    | caught m => exact ih (start + 1) _ _

/-- C1: with `throwOnError` true, the transport-call count of `_fetch`
equals min(retries + 1, attempts until the first successful attempt): the
first success stops retrying, every thrown attempt consumes budget, at most
retries + 1 calls are made; retries = 0 gives exactly one call with no
busy wait, and retryDelay = 0 gives no busy wait at all. -/
theorem c1_retry_budget (env : Env) (url : String) (o : FetchOptions)
    (htoe : o.throwOnError = true) :
    (_fetch env url o).calls =
        min (o.retries + 1)
          (attemptsUntilFirstSuccess (fetchAttemptReturns env url o) (o.retries + 1))
      ∧ (_fetch env url o).calls ≤ o.retries + 1
      ∧ (o.retries = 0 → (_fetch env url o).calls = 1 ∧ (_fetch env url o).waitMs = 0)
      ∧ (o.retryDelay = 0 → (_fetch env url o).waitMs = 0) := by
  have hcalls : (_fetch env url o).calls =
      match firstIdxTrue (fetchAttemptReturns env url o) (o.retries + 1) 0 with
      | some s => s + 1
      | none => o.retries + 1 := by
    have h := fetchLoop_calls env url (jsToUpperCase o.method)
      (mergeHeaders env.defaultHeaders o.headers) (serializeBody o.data)
      o.useAuth o.parseJson o.parseHtml o.throwOnError o.retries o.retryDelay
      (o.retries + 1) 0 0 none
    simpa [_fetch, fetchAttemptReturns] using h
  refine ⟨?_, ?_, ?_, ?_⟩
  · rw [hcalls]
    unfold attemptsUntilFirstSuccess
    cases h : firstIdxTrue (fetchAttemptReturns env url o) (o.retries + 1) 0 with
    | some s =>
      have hb := (firstIdxTrue_lt (fetchAttemptReturns env url o) (o.retries + 1) 0 s h).2
      show s + 1 = min (o.retries + 1) (s + 1)
      omega
    | none =>
      show o.retries + 1 = min (o.retries + 1) (o.retries + 1)
      simp
  · rw [hcalls]
    cases h : firstIdxTrue (fetchAttemptReturns env url o) (o.retries + 1) 0 with
    | some s =>
      have hb := (firstIdxTrue_lt (fetchAttemptReturns env url o) (o.retries + 1) 0 s h).2
      show s + 1 ≤ o.retries + 1
      omega
    | none =>
      show o.retries + 1 ≤ o.retries + 1
      omega
  · intro h0
    cases hr : runAttempt env url (jsToUpperCase o.method)
        (mergeHeaders env.defaultHeaders o.headers) (serializeBody o.data)
        o.useAuth o.parseJson o.parseHtml true 0 with
    | returns r => constructor <;> simp [_fetch, h0, fetchLoop, htoe, hr]
    | caught m => constructor <;> simp [_fetch, h0, fetchLoop, htoe, hr]
  · intro hd
    have h := fetchLoop_waits_rd0 env url (jsToUpperCase o.method)
      (mergeHeaders env.defaultHeaders o.headers) (serializeBody o.data)
      o.useAuth o.parseJson o.parseHtml o.throwOnError o.retries
      (o.retries + 1) 0 0 none
    simpa [_fetch, hd] using h

/-- Witness for C1 at a concrete always-succeeding transport with
retries = 0 and retryDelay = 0. -/
theorem c1_retry_budget_witness :
    (_fetch envOk "https://example.com/a" oZeroRetries).calls =
        min (oZeroRetries.retries + 1)
          (attemptsUntilFirstSuccess
            (fetchAttemptReturns envOk "https://example.com/a" oZeroRetries)
            (oZeroRetries.retries + 1))
      ∧ (_fetch envOk "https://example.com/a" oZeroRetries).calls = 1
      ∧ (_fetch envOk "https://example.com/a" oZeroRetries).waitMs = 0 := by
  have h := c1_retry_budget envOk "https://example.com/a" oZeroRetries rfl
  exact ⟨h.1, (h.2.2.1 rfl).1, h.2.2.2 rfl⟩

/-- C2 counterexample: with throwOnError false and a transport that always
responds with HTTP 500, `_fetch` returns null after a single transport
call, not after the full retries + 1 = 4 budget the claim asserts. -/
theorem c2_nonok_counterexample :
    (_fetch envNotOk "https://example.com/a" oNoThrow).result = .nullResult
      ∧ (_fetch envNotOk "https://example.com/a" oNoThrow).calls = 1
      ∧ oNoThrow.retries + 1 = 4
      ∧ (1 : Nat) ≠ 4 :=
  ⟨by rfl, by rfl, by rfl, by decide⟩

/-- C2 amended: with throwOnError false, thrown attempts (transport throws
and parse failures) are retried up to retries + 1 total attempts and then a
null result is returned; but a non-OK transport status returns null
immediately on its first attempt, without consuming the retry budget. -/
theorem c2_null_and_budget (env : Env) (url : String) (o : FetchOptions)
    (htoe : o.throwOnError = false) :
    ((∀ k, attemptThrows env url o k) →
        (_fetch env url o).result = .nullResult
          ∧ (_fetch env url o).calls = o.retries + 1)
      ∧ ((∀ i req, respondsNotOk (env.http i req) = true) →
        (_fetch env url o).result = .nullResult
          ∧ (_fetch env url o).calls = 1) := by
  constructor
  · intro hall
    have hall' : ∀ k, ∃ m, runAttempt env url (jsToUpperCase o.method)
        (mergeHeaders env.defaultHeaders o.headers) (serializeBody o.data)
        o.useAuth o.parseJson o.parseHtml false k = .caught m := by
      intro k
      have h := hall k
      simp only [attemptThrows, htoe] at h
      exact h
    have h := fetchLoop_allCaught_null env url (jsToUpperCase o.method)
      (mergeHeaders env.defaultHeaders o.headers) (serializeBody o.data)
      o.useAuth o.parseJson o.parseHtml o.retries o.retryDelay hall'
      (o.retries + 1) 0 0 none
    exact ⟨by simpa [_fetch, htoe] using h.1, by simpa [_fetch, htoe] using h.2⟩
  · intro hresp
    have h0 := runAttempt_null_of_notOk env url (jsToUpperCase o.method)
      (mergeHeaders env.defaultHeaders o.headers) (serializeBody o.data)
      o.useAuth o.parseJson o.parseHtml 0 hresp
    have h := fetchLoop_firstNull env url (jsToUpperCase o.method)
      (mergeHeaders env.defaultHeaders o.headers) (serializeBody o.data)
      o.useAuth o.parseJson o.parseHtml o.retries o.retryDelay
      (o.retries + 1) 0 0 none h0 (Nat.succ_pos _)
    exact ⟨by simp [_fetch, htoe, h], by simp [_fetch, htoe, h]⟩

/-- Witness for the amended C2 at two concrete transports: one that always
throws (full budget consumed, 4 calls) and one that always responds
non-OK (single call). -/
theorem c2_null_and_budget_witness :
    ((_fetch envThrows "https://example.com/a" oNoThrow).result = .nullResult
        ∧ (_fetch envThrows "https://example.com/a" oNoThrow).calls = oNoThrow.retries + 1)
      ∧ ((_fetch envNotOk "https://example.com/b" oNoThrow).result = .nullResult
        ∧ (_fetch envNotOk "https://example.com/b" oNoThrow).calls = 1) := by
  constructor
  · exact (c2_null_and_budget envThrows "https://example.com/a" oNoThrow rfl).1
      (fun k => ⟨"socket hang up", by rfl⟩)
  · exact (c2_null_and_budget envNotOk "https://example.com/b" oNoThrow rfl).2
      (fun i req => by rfl)

theorem fetchGraphQL_thrown_of_notOk (env : Env) (endpoint q : String)
    (vs : List (String × JValue)) (options : FetchOptions)
    (htoe : options.throwOnError = true)
    (hResp : ∀ i req, respondsNotOk (env.http i req) = true) :
    ∃ t, (fetchGraphQL env endpoint q vs options).result =
      .error ⟨"NetworkError",
        "Request to " ++ endpoint ++ " failed after "
          ++ toString (options.retries + 1) ++ " attempts: " ++ t⟩ := by
  obtain ⟨t, ht⟩ := _fetch_thrown_of_notOk env endpoint
    { options with
        method := "POST"
        headers := ("Content-Type", "application/json") :: options.headers
        data := .obj [("query", .str q), ("variables", .obj vs)]
        parseJson := true }
    htoe hResp
  refine ⟨t, ?_⟩
  simp only [fetchGraphQL]
  rw [ht]

/-- C3: a standard query issued through the raising convenience form
against a transport that responds non-OK on every attempt raises a
GraphQLError-kind failure whose message embeds the failing URL (base URL
joined with the default /graphql endpoint) and the attempt count, as
propagated from the underlying NetworkError. -/
theorem c3_query_error_mentions_url (env : Env) (qs : String)
    (vs : List (String × JValue)) (hq : qs ≠ "")
    (hResp : ∀ i req, respondsNotOk (env.http i req) = true) :
    ∃ t, (query env qs vs).1 =
      Except.error ⟨"GraphQLError",
        "Request to " ++ (env.baseUrl ++ "/graphql") ++ " failed after "
          ++ toString (3 + 1) ++ " attempts: " ++ t⟩ := by
  obtain ⟨t, ht⟩ := fetchGraphQL_thrown_of_notOk env (env.baseUrl ++ "/graphql") qs vs
    { headers := [], useAuth := false, retries := 3 } rfl hResp
  refine ⟨t, ?_⟩
  simp only [query, executeQuery, Option.getD_some, if_neg hq,
    show jsStartsWith "/graphql" "http" = false from by rfl, Bool.false_eq_true,
    if_false]
  rw [ht]
  dsimp only
  split_ifs <;> rfl

/-- Witness for C3 at the scripted HTTP 500 transport. -/
theorem c3_query_error_mentions_url_witness :
    ∃ t, (query envNotOk "\x7bviewer\x7bid\x7d\x7d" []).1 =
      Except.error ⟨"GraphQLError",
        "Request to " ++ (envNotOk.baseUrl ++ "/graphql") ++ " failed after "
          ++ toString (3 + 1) ++ " attempts: " ++ t⟩ :=
  c3_query_error_mentions_url envNotOk "\x7bviewer\x7bid\x7d\x7d" [] (by decide)
    (fun i req => by rfl)

/-- C5: a standard query with an absent or empty query string fails fast
with code INVALID_QUERY (spec name invalid-query), and a persisted query
with a missing (empty) operationName or sha256Hash fails fast with code
INVALID_PERSISTED_QUERY (spec name invalid-persisted-query); both results
carry null data and record zero transport calls. -/
theorem c5_failfast (env : Env) (o1 : GraphQLOptions) (o2 : PersistedQueryOptions) :
    ((o1.query = none ∨ o1.query = some "") →
        executeQuery env o1 =
          ⟨some ⟨"INVALID_QUERY", "Query string is required", none, none⟩, .null, 0, 0⟩)
      ∧ ((o2.operationName = "" ∨ o2.sha256Hash = "") →
        executePersistedQuery env o2 =
          ⟨some ⟨"INVALID_PERSISTED_QUERY", "operationName and sha256Hash are required",
            none, none⟩, .null, 0, 0⟩) := by
  constructor
  · intro h
    have hq : o1.query.getD "" = "" := by
      rcases h with h | h <;> simp [h]
    simp [executeQuery, hq]
  · intro h
    unfold executePersistedQuery
    rw [if_pos h]

/-- Witness for C5 at concrete fail-fast inputs. -/
theorem c5_failfast_witness :
    executeQuery envOk { query := some "" } =
        ⟨some ⟨"INVALID_QUERY", "Query string is required", none, none⟩, .null, 0, 0⟩
      ∧ executePersistedQuery envOk { operationName := "", sha256Hash := "h" } =
        ⟨some ⟨"INVALID_PERSISTED_QUERY", "operationName and sha256Hash are required",
          none, none⟩, .null, 0, 0⟩ :=
  ⟨(c5_failfast envOk { query := some "" } { operationName := "", sha256Hash := "h" }).1
      (Or.inr rfl),
   (c5_failfast envOk { query := some "" } { operationName := "", sha256Hash := "h" }).2
      (Or.inl rfl)⟩

/-- C7 counterexample: `false` is a present, non-null, non-string body
value, yet the serialized body is the empty string rather than its JSON
encoding "false" — the `data ? ... : ""` test uses truthiness, not
presence. -/
theorem c7_body_counterexample :
    serializeBody (JValue.bool false) = ""
      ∧ jsonStringify (JValue.bool false) = "false"
      ∧ ("" : String) ≠ "false"
      ∧ JValue.bool false ≠ JValue.null
      ∧ JValue.bool false ≠ JValue.str "false" :=
  ⟨rfl, rfl, by decide, fun h => JValue.noConfusion h, fun h => JValue.noConfusion h⟩

/-- C7 amended: the body handed to the transport is `serializeBody data`:
a falsy body (absent, null, false, 0, empty string) becomes the empty
string, a truthy string passes through unchanged, and any other truthy
value is JSON-encoded. -/
theorem c7_body_serialization (d : JValue) (url : String) :
    (_fetch envEcho url { method := "POST", data := d }).result
        = .ok (.raw ⟨true, 200, serializeBody d⟩)
      ∧ (d.truthy = false → serializeBody d = "")
      ∧ (∀ s, s ≠ "" → serializeBody (JValue.str s) = s)
      ∧ (d.truthy = true → (∀ s, d ≠ JValue.str s) → serializeBody d = jsonStringify d) := by
  refine ⟨by rfl, ?_, ?_, ?_⟩
  · intro h
    simp [serializeBody, h]
  · intro s hs
    simp [serializeBody, JValue.truthy, hs]
  · intro ht hns
    cases d with
    | str s => exact absurd rfl (hns s)
    | null => simp [JValue.truthy] at ht
    | bool b => simp [serializeBody, ht]
    | num n => simp [serializeBody, ht]
    | arr xs => simp [serializeBody, ht]
    | obj fs => simp [serializeBody, ht]

/-- Witness for amended C7: a truthy non-string body is JSON-encoded. -/
theorem c7_body_serialization_witness :
    serializeBody (JValue.bool true) = jsonStringify (JValue.bool true) :=
  (c7_body_serialization (JValue.bool true) "https://example.com/a").2.2.2 rfl
    (fun s h => JValue.noConfusion h)

/-- C8: caller headers win over defaults on key collision (last-write-wins
lookup over the object spread), including over the Accept header added by
the JSON GET variant and the Content-Type header added by the JSON POST
variant; the probe transport observes the exact effective header value
`_fetch` dispatches. -/
theorem c8_header_merge (d c : List (String × String)) (k url : String) :
    (∀ v, hGet c k = some v → hGet (mergeHeaders d c) k = some v)
      ∧ (hGet c k = none → hGet (mergeHeaders d c) k = hGet d k)
      ∧ hGet (mergeHeaders [("User-Agent", "D")] [("User-Agent", "C")]) "User-Agent"
          = some "C"
      ∧ (_fetch (probeEnv d k) url { headers := c }).result
          = .ok (.raw ⟨true, 200, (hGet (mergeHeaders d c) k).getD ""⟩)
      ∧ (fetchJson (probeEnv d k) url { headers := c }).result
          = .ok (.json (.str
              ((hGet (mergeHeaders d (("Accept", "application/json") :: c)) k).getD "")))
      ∧ (postJson (probeEnv d k) url .null { headers := c }).result
          = .ok (.json (.str
              ((hGet (mergeHeaders d (("Accept", "application/json")
                  :: ("Content-Type", "application/json") :: c)) k).getD ""))) := by
  refine ⟨?_, ?_, by rfl, by rfl, by rfl, by rfl⟩
  · intro v hv
    simp [mergeHeaders, hGet_append, hv]
  · intro hn
    simp [mergeHeaders, hGet_append, hn]

/-- Witness for C8: the User-Agent collision resolves to the caller value,
and an uncontested default survives the merge. -/
theorem c8_header_merge_witness :
    hGet (mergeHeaders [("User-Agent", "D")] [("User-Agent", "C")]) "User-Agent" = some "C"
      ∧ hGet (mergeHeaders [("User-Agent", "D")] []) "User-Agent" = some "D" := by
  constructor
  · exact (c8_header_merge [("User-Agent", "D")] [("User-Agent", "C")] "User-Agent"
      "https://example.com/a").1 "C" rfl
  · have h := (c8_header_merge [("User-Agent", "D")] [] "User-Agent"
      "https://example.com/a").2.1 rfl
    exact h.trans (by rfl)

/-- C9: when parseJson and parseHtml are both requested, JSON parsing wins
deterministically — the outcome is identical to parseHtml being unset, and
every successful result is a JSON result (the HTML parser never
contributes). -/
theorem c9_parsejson_precedence (env : Env) (url : String) (o : FetchOptions)
    (hpj : o.parseJson = true) :
    _fetch env url o = _fetch env url { o with parseHtml := false }
      ∧ (∀ r, (_fetch env url o).result = .ok r →
          ∃ v, r = .json v ∧ (jGet v "errors").truthy = false) := by
  constructor
  · simp only [_fetch, hpj]
    exact fetchLoop_ph_irrel env url (jsToUpperCase o.method)
      (mergeHeaders env.defaultHeaders o.headers) (serializeBody o.data)
      o.useAuth o.parseHtml o.throwOnError o.retries o.retryDelay
      (o.retries + 1) 0 0 none
  · intro r h
    have hpj2 : (fetchLoop env url (jsToUpperCase o.method)
        (mergeHeaders env.defaultHeaders o.headers) (serializeBody o.data)
        o.useAuth true o.parseHtml o.throwOnError o.retries o.retryDelay
        (o.retries + 1) 0 0 none).result = .ok r := by
      simpa [_fetch, hpj] using h
    exact fetchLoop_ok_json env url (jsToUpperCase o.method)
      (mergeHeaders env.defaultHeaders o.headers) (serializeBody o.data)
      o.useAuth o.parseHtml o.throwOnError o.retries o.retryDelay
      (o.retries + 1) 0 0 none r hpj2

/-- Witness for C9 with both parse flags set against the OK transport. -/
theorem c9_parsejson_precedence_witness :
    _fetch envOk "https://example.com/a" oBothParse =
      _fetch envOk "https://example.com/a" { oBothParse with parseHtml := false } :=
  (c9_parsejson_precedence envOk "https://example.com/a" oBothParse rfl).1

theorem processPayload_null (opName : String) :
    processPayload opName .null =
      .error ⟨"TypeError", "Cannot read properties of null (reading data)"⟩ := by rfl

theorem processPayload_ok_none (opName : String) (v : JValue)
    (hverr : (jGet v "errors").truthy = false) (e : Option GraphQLError) (d : JValue)
    (h : processPayload opName v = .ok (e, d)) : e = none := by
  unfold processPayload at h
  rw [hverr, Bool.and_false] at h
  simp only [Bool.false_eq_true, if_false] at h
  cases hj : jGetE v "data" with
  | ok d2 =>
    rw [hj] at h
    injection h with h1
    injection h1 with h2 h3
    exact h2.symm
  | error e2 =>
    rw [hj] at h
    cases h

theorem getJson_ok_json (env : Env) (url : String) (opts : FetchOptions)
    (fr : FetchResult) (h : (getJson env url opts).result = .ok fr) :
    ∃ v, fr = .json v ∧ (jGet v "errors").truthy = false := by
  simp only [getJson, fetchJson, _fetch] at h
  exact fetchLoop_ok_json env url _ _ _ _ _ _ _ _ _ _ _ _ fr h

theorem getJson_notOk_outcome (env : Env) (url : String) (opts : FetchOptions)
    (htoe : opts.throwOnError = false)
    (hResp : ∀ i req, respondsNotOk (env.http i req) = true) :
    getJson env url opts = ⟨.nullResult, 1, 0⟩ := by
  simp only [getJson, fetchJson, _fetch, htoe]
  exact fetchLoop_firstNull env url _ _ _ _ _ _ _ _ _ 0 0 none
    (runAttempt_null_of_notOk env url _ _ _ _ _ _ 0 hResp) (Nat.succ_pos _)

/-- C6: the tuple-returning forms never populate both slots — every result
of `executeQuery` and of `executePersistedQuery` has a null error (success)
or null data (failure). In particular the partial-data branch of
`executePersistedQuery` is unreachable, because `_fetch` never hands back a
JSON payload whose `errors` field is truthy. -/
theorem c6_error_data_invariant (env : Env) (o1 : GraphQLOptions)
    (o2 : PersistedQueryOptions) :
    ((executeQuery env o1).error = none ∨ (executeQuery env o1).data = .null)
      ∧ ((executePersistedQuery env o2).error = none
          ∨ (executePersistedQuery env o2).data = .null) := by
  constructor
  · by_cases hq : o1.query.getD "" = ""
    · exact Or.inr (by simp [executeQuery, hq])
    · simp only [executeQuery, if_neg hq]
      split
      · exact Or.inl rfl
      · right
        split_ifs <;> rfl
  · by_cases hv : o2.operationName = "" ∨ o2.sha256Hash = ""
    · refine Or.inr ?_
      unfold executePersistedQuery
      rw [if_pos hv]
    · simp only [executePersistedQuery, if_neg hv]
      split
      · rename_i e d heq
        split at heq
        · cases heq
        · rw [processPayload_null] at heq
          cases heq
        · rename_i fr h2
          obtain ⟨v, hfr, hverr⟩ := getJson_ok_json env _ _ fr h2
          subst hfr
          simp only [FetchResult.asJson] at heq
          exact Or.inl (processPayload_ok_none _ _ hverr e d heq)
      · exact Or.inr rfl

/-- C10: a persisted query whose underlying GET yields a null result (here:
a transport that responds non-OK on every attempt, with throwOnError forced
false) does not raise — reading `.data` of the null payload throws a
TypeError that the catch converts into a returned EXCEPTION error (not
GQL_ERROR) with null data, after a single transport call. -/
theorem c10_persisted_null_exception (env : Env) (o : PersistedQueryOptions)
    (hop : o.operationName ≠ "") (hsh : o.sha256Hash ≠ "")
    (hResp : ∀ i req, respondsNotOk (env.http i req) = true) :
    executePersistedQuery env o =
      ⟨some ⟨"EXCEPTION", "Cannot read properties of null (reading data)",
        none, some o.operationName⟩, .null, 1, 0⟩ := by
  have hcond : ¬(o.operationName = "" ∨ o.sha256Hash = "") := by
    rintro (h | h)
    · exact hop h
    · exact hsh h
  have hg := getJson_notOk_outcome env
    (env.baseUrl ++ "?" ++ env.encodeParams
      ([("operationName", o.operationName)]
        ++ (if o.vars.length > 0 then
              [("variables", jsonStringify (.obj o.vars))] else [])
        ++ [("extensions", jsonStringify (.obj [("persistedQuery",
              .obj [("version", .num o.version),
                    ("sha256Hash", .str o.sha256Hash)])]))]))
    { headers := o.headers, useAuth := o.useAuth, retries := o.retries, throwOnError := false }
    rfl hResp
  simp only [executePersistedQuery, if_neg hcond, hg]
  rfl

/-- Witness for C10 at the scripted HTTP 500 transport. -/
theorem c10_persisted_null_exception_witness :
    executePersistedQuery envNotOk { operationName := "op", sha256Hash := "h" } =
      ⟨some ⟨"EXCEPTION", "Cannot read properties of null (reading data)",
        none, some "op"⟩, .null, 1, 0⟩ :=
  c10_persisted_null_exception envNotOk { operationName := "op", sha256Hash := "h" }
    (by decide) (by decide) (fun i req => by rfl)

/-- C4 (code bug): against a transport that always returns HTTP 200 with
the payload holding errors &#91;A, B&#93; and data x=1, `executePersistedQuery`
does NOT return the graphql-error with message "A, B" and the partial
data — `_fetch` throws APIError on the truthy `errors` field, exhausts all
4 attempts, and `getJson` (throwOnError false) returns null, so the result
is an EXCEPTION error with null data. The second conjunct shows that the
payload-inspection code of lines 170-184, evaluated on the same payload in
isolation, would produce exactly the claimed "A, B" with data x=1 — the
branch the spec describes is dead code. -/
theorem c4_persisted_errors_unreachable :
    executePersistedQuery envGqlErrors { operationName := "op", sha256Hash := "h" } =
      ⟨some ⟨"EXCEPTION", "Cannot read properties of null (reading data)",
        none, some "op"⟩, .null, 4, 3000⟩
      ∧ processPayload "op" payloadAB =
        .ok (some ⟨"GQL_ERROR", "A, B",
          some (.arr [.obj [("message", .str "A")], .obj [("message", .str "B")]]),
          some "op"⟩, .obj [("x", .num 1)]) :=
  ⟨by rfl, by rfl⟩

end XH
